import Mathlib

/-!
Shallow embedding of the keyword-scanner front-end submit handler
(src/static/script.js) and proofs about its observable behaviour.

Strings are modelled as lists of characters (`Str`).  JavaScript
`toLowerCase` is modelled character-wise with `Char.toLower` (faithful on
ASCII data; Lean characters lower-case independently, so lengths are
preserved).  JavaScript `indexOf` is modelled as an `Option Nat`-valued
first-occurrence search (`-1` becomes `none`).  The DOM output of the
handler is modelled as an inductive `Rendered` value describing the final
contents of the results container, plus explicit innerHTML strings for
the fragments the code assembles by string concatenation.
-/

/-- Strings of the embedded program: lists of characters. -/
abbrev Str := List Char

/-- Character-wise model of JavaScript `String.prototype.toLowerCase`. -/
def jsToLower (s : Str) : Str := s.map Char.toLower

/-- Characters treated as whitespace by JavaScript `String.prototype.trim`
(ASCII whitespace, NBSP, BOM and the line separators; the rarer Unicode
space separators are omitted from the model). -/
def jsWhitespaceChar (c : Char) : Bool :=
  c == ' ' || c == '\t' || c == '\n' || c == '\r' || c == '\u000B' ||
  c == '\u000C' || c == '\u00A0' || c == '\uFEFF' || c == '\u2028' || c == '\u2029'

/-- Model of JavaScript `String.prototype.trim`: strip leading and trailing
whitespace. -/
def jsTrim (s : Str) : Str :=
  ((s.dropWhile jsWhitespaceChar).reverse.dropWhile jsWhitespaceChar).reverse

/-- Model of JavaScript `hay.indexOf(needle)`: the least index at which
`needle` occurs as a contiguous substring of `hay`, or `none` when there is
no occurrence (JavaScript returns `-1`).  As in JavaScript, an empty needle
is found at index 0. -/
def jsIndexOf : Str → Str → Option Nat
  | [], needle => if needle.isPrefixOf [] then some 0 else none
  | c :: t, needle =>
      if needle.isPrefixOf (c :: t) then some 0
      else (jsIndexOf t needle).map (· + 1)

/-- Model of JavaScript `s.substring(a, b)` for the in-range, ordered calls
made by the script (`a ≤ b`): the slice from index `a` (inclusive) to `b`
(exclusive), clamped to the string. -/
def jsSubstring (s : Str) (a b : Nat) : Str := (s.drop a).take (b - a)

/-- Model of JavaScript `s.substring(a)`: the suffix from index `a`,
clamped to the string. -/
def jsSubstringFrom (s : Str) (a : Nat) : Str := s.drop a

/-- Model of `escapeHtml` (script.js lines 115-119): assigning
`div.textContent` and reading back `div.innerHTML` HTML-escapes the markup
characters `&`, `<`, `>`. -/
def escapeHtmlChar (c : Char) : Str :=
  if c = '&' then "&amp;".data
  else if c = '<' then "&lt;".data
  else if c = '>' then "&gt;".data
  else [c]

/-- `escapeHtml(text)`: escape each character. -/
def escapeHtml (s : Str) : Str := s.flatMap escapeHtmlChar

/-- One element of the `/scan` response array (spec section 3,
`ScanResult`). -/
structure ScanResult where
  document_url : Str
  excerpt : Str
deriving DecidableEq, Repr

/-- The rendered excerpt div of one result item: either split into
before/highlighted-match/after (lines 96-104, the highlighted slice is the
one wrapped in the `result-keyword` span), or the plain excerpt set via
`textContent` with no highlight (line 106). -/
inductive ExcerptRender where
  | highlighted (before matched after : Str)
  | plain (text : Str)
deriving DecidableEq, Repr

/-- One rendered result item (lines 79-111): the link href, the link text
(set via `textContent`, hence inert text) and the excerpt div. -/
structure RenderedItem where
  linkHref : Str
  linkText : Str
  excerptDiv : ExcerptRender
deriving DecidableEq, Repr

/-- Final contents of the results container after one submit cycle. -/
inductive Rendered where
  | error (message : Str)
  | noResults (message : Str)
  | results (title : Str) (items : List RenderedItem)
deriving DecidableEq, Repr

/-- The keyword-highlighting logic of `displayResults`
(script.js lines 92-107): lower-case excerpt and keyword, find the first
index of the lowered keyword in the lowered excerpt; when found, split the
original-case excerpt at that index using `keyword.length`; otherwise
render the excerpt unmodified. -/
def renderExcerpt (excerpt keyword : Str) : ExcerptRender :=
  match jsIndexOf (jsToLower excerpt) (jsToLower keyword) with
  | some keywordIndex =>
      .highlighted (jsSubstring excerpt 0 keywordIndex)
        (jsSubstring excerpt keywordIndex (keywordIndex + keyword.length))
        (jsSubstringFrom excerpt (keywordIndex + keyword.length))
  | none => .plain excerpt

/-- The innerHTML string assigned to the excerpt div (lines 101-104):
escaped before-slice, the literal span wrapper, escaped matched slice,
closing tag, escaped after-slice.  In the no-match branch the div is
filled via `textContent` (line 106), whose DOM serialization is the
escaped excerpt. -/
def excerptInnerHtml (excerpt keyword : Str) : Str :=
  match jsIndexOf (jsToLower excerpt) (jsToLower keyword) with
  | some keywordIndex =>
      escapeHtml (jsSubstring excerpt 0 keywordIndex) ++
      "<span class=\"result-keyword\">".data ++
      escapeHtml (jsSubstring excerpt keywordIndex (keywordIndex + keyword.length)) ++
      "</span>".data ++
      escapeHtml (jsSubstringFrom excerpt (keywordIndex + keyword.length))
  | none => escapeHtml excerpt

/-- The innerHTML string assigned by `showError` (line 65). -/
def showErrorHtml (message : Str) : Str :=
  "<div class=\"error\">".data ++ escapeHtml message ++ "</div>".data

/-- Rendering of one result (lines 79-111): href is the raw
`document_url`, link text is the same string set via `textContent`, and
the excerpt div is the highlight rendering. -/
def renderItem (keyword : Str) (r : ScanResult) : RenderedItem :=
  { linkHref := r.document_url
    linkText := r.document_url
    excerptDiv := renderExcerpt r.excerpt keyword }

/-- The count-header text (line 76):
`Found (length) match` plus `es` exactly when the count exceeds one. -/
def resultsTitleText (n : Nat) : Str :=
  "Found ".data ++ (Nat.repr n).data ++ " match".data ++
    (if 1 < n then "es".data else [])

/-- The fixed no-results message (line 70). -/
def noResultsMessage : Str :=
  "No matches found for the keyword in the scanned documents.".data

/-- `displayResults(results, keyword)` (lines 68-113) as a function from
the parsed response array to the final container contents. -/
def displayResults (results : List ScanResult) (keyword : Str) : Rendered :=
  if results.length = 0 then .noResults noResultsMessage
  else .results (resultsTitleText results.length) (results.map (renderItem keyword))

/-- Validation message shown when either trimmed field is empty (line 16). -/
def validationMessage : Str :=
  "Please fill in both URL and keyword fields.".data

/-- Message thrown when a non-success response carries no usable `detail`
(line 37). -/
def serviceErrorMessage : Str :=
  "An error occurred while scanning documents.".data

/-- Generic fallback used when a caught error has a falsy `message`
(line 44). -/
def genericFallbackMessage : Str :=
  "Failed to scan documents. Please check the URL and try again.".data

/-- Model of the engine `TypeError` message raised when `displayResults`
receives a non-array value and calls `forEach` on it; the exact wording is
engine-specific and immaterial to the claims. -/
def forEachTypeErrorMessage : Str :=
  "results.forEach is not a function".data

/-- Parsed JSON bodies the handler distinguishes: an array of results
(success path) or an object with an optional string `detail` field
(error path). -/
inductive JsonVal where
  | arr (results : List ScanResult)
  | obj (detail : Option Str)
deriving DecidableEq, Repr

/-- `detail` field lookup: an array has no `detail` property. -/
def detailOf : JsonVal → Option Str
  | .arr _ => none
  | .obj d => d

/-- JavaScript `x || fallback` on an optional string: missing (`undefined`)
or empty (falsy) strings select the fallback. -/
def jsOrElse (d : Option Str) (fallback : Str) : Str :=
  match d with
  | some s => if s = [] then fallback else s
  | none => fallback

/-- Outcome of the `fetch` round trip: the promise rejects with an error
message (network-level failure), or a response arrives with an `ok` flag
and a body whose `json()` either throws (with the parse-error message) or
yields a value. -/
inductive ScanResponse where
  | netFail (message : Str)
  | resp (ok : Bool) (body : Except Str JsonVal)

/-- UI state of the loading affordance and the submit control. -/
structure UiState where
  loadingActive : Bool
  submitDisabled : Bool
deriving DecidableEq, Repr

/-- `setLoading` (lines 50-58): add or remove the `active` class and set
`submitBtn.disabled` accordingly. -/
def setLoading (isLoading : Bool) : UiState :=
  if isLoading then { loadingActive := true, submitDisabled := true }
  else { loadingActive := false, submitDisabled := false }

/-- Observable outcome of one submit cycle: whether a network call was
issued, the final contents of the results container and the final UI
state. -/
structure SubmitOutcome where
  networkCalled : Bool
  rendered : Rendered
  ui : UiState
deriving DecidableEq, Repr

/-- The body of the `try` block (lines 23-42) after the fetch resolves:
either a value rendered by `displayResults`, or the message of the error
thrown on that path.  A non-success response re-parses the body for
`detail` and throws `detail || serviceErrorMessage` (line 37); a `json()`
failure propagates the parse-error message; a success body that is not an
array makes `forEach` throw. -/
def tryScan (keyword : Str) (response : ScanResponse) : Except Str Rendered :=
  match response with
  | .netFail m => .error m
  | .resp ok body =>
    if !ok then
      match body with
      | .error parseMsg => .error parseMsg
      | .ok v => .error (jsOrElse (detailOf v) serviceErrorMessage)
    else
      match body with
      | .error parseMsg => .error parseMsg
      | .ok (.arr rs) => .ok (displayResults rs keyword)
      | .ok (.obj _) => .error forEachTypeErrorMessage

/-- The `catch` and `finally` clauses (lines 43-47): a caught error with
message `m` is shown as `m || genericFallbackMessage` (line 44), and
`finally` always runs `setLoading(false)` (line 46). -/
def finishCycle : Except Str Rendered → SubmitOutcome
  | .ok r =>
      { networkCalled := true, rendered := r, ui := setLoading false }
  | .error m =>
      { networkCalled := true
        rendered := .error (if m = [] then genericFallbackMessage else m)
        ui := setLoading false }

/-- The submit handler (lines 9-48).  Inputs are the raw field values, the
outcome of the (single) fetch, and the UI state the page was in before the
submit.  Validation failure renders the validation message and leaves the
UI state untouched (no `setLoading` call, no fetch); otherwise the
try/catch/finally runs on the fetch outcome. -/
def handleSubmit (rawUrl rawKeyword : Str) (response : ScanResponse)
    (ui0 : UiState) : SubmitOutcome :=
  let url := jsTrim rawUrl
  let keyword := jsTrim rawKeyword
  if url = [] ∨ keyword = [] then
    { networkCalled := false, rendered := .error validationMessage, ui := ui0 }
  else
    finishCycle (tryScan keyword response)

/-- The running example of the spec: excerpt and keyword. -/
def foxExcerpt : Str := "The quick Fox jumps".data

/-- The running example of the spec: the keyword. -/
def foxKeyword : Str := "fox".data

/-! ## Helper lemmas -/

/-- Bridge between the executable `isPrefixOf` test used by `jsIndexOf`
and the propositional `<+:` relation. -/
theorem isPrefixOf_eq_true_iff (l₁ l₂ : Str) :
    l₁.isPrefixOf l₂ = true ↔ l₁ <+: l₂ :=
  List.isPrefixOf_iff_prefix

/-- When `jsIndexOf` reports index `i`, the needle occurs at `i`. -/
theorem jsIndexOf_some_occurs (needle : Str) :
    ∀ (hay : Str) (i : Nat), jsIndexOf hay needle = some i →
      needle <+: hay.drop i := by
  intro hay
  induction hay with
  | nil =>
    intro i h
    simp only [jsIndexOf] at h
    split at h
    · next hp =>
      cases h
      exact (isPrefixOf_eq_true_iff _ _).mp hp
    · simp at h
  | cons c t ih =>
    intro i h
    simp only [jsIndexOf] at h
    split at h
    · next hp =>
      cases h
      exact (isPrefixOf_eq_true_iff _ _).mp hp
    · next hp =>
      cases hj : jsIndexOf t needle with
      | none => rw [hj] at h; simp at h
      | some n =>
        rw [hj] at h
        simp only [Option.map] at h
        cases h
        simpa using ih n hj

/-- When `jsIndexOf` reports index `i`, no strictly earlier index carries
an occurrence: `i` is the first occurrence. -/
theorem jsIndexOf_some_least (needle : Str) :
    ∀ (hay : Str) (i : Nat), jsIndexOf hay needle = some i →
      ∀ j < i, ¬ needle <+: hay.drop j := by
  intro hay
  induction hay with
  | nil =>
    intro i h
    simp only [jsIndexOf] at h
    split at h
    · cases h; omega
    · simp at h
  | cons c t ih =>
    intro i h
    simp only [jsIndexOf] at h
    split at h
    · cases h; omega
    · next hp =>
      cases hj : jsIndexOf t needle with
      | none => rw [hj] at h; simp at h
      | some n =>
        rw [hj] at h
        simp only [Option.map] at h
        cases h
        intro j hj' hocc
        match j with
        | 0 =>
          exact hp ((isPrefixOf_eq_true_iff _ _).mpr (by simpa using hocc))
        | j' + 1 =>
          exact ih n hj j' (by omega) (by simpa using hocc)

/-- When `jsIndexOf` reports no occurrence, the needle occurs nowhere. -/
theorem jsIndexOf_none_not_occurs (needle : Str) :
    ∀ (hay : Str), jsIndexOf hay needle = none →
      ∀ j, ¬ needle <+: hay.drop j := by
  intro hay
  induction hay with
  | nil =>
    intro h j hocc
    simp only [jsIndexOf] at h
    split at h
    · simp at h
    · next hp =>
      refine hp ((isPrefixOf_eq_true_iff _ _).mpr ?_)
      simpa using hocc
  | cons c t ih =>
    intro h j hocc
    simp only [jsIndexOf] at h
    split at h
    · simp at h
    · next hp =>
      cases hj : jsIndexOf t needle with
      | some n => rw [hj] at h; simp at h
      | none =>
        match j with
        | 0 => exact hp ((isPrefixOf_eq_true_iff _ _).mpr (by simpa using hocc))
        | j' + 1 => exact ih hj j' (by simpa using hocc)

/-- Neither markup character survives the per-character escape. -/
theorem escapeHtmlChar_markup_free (c : Char) :
    '<' ∉ escapeHtmlChar c ∧ '>' ∉ escapeHtmlChar c := by
  unfold escapeHtmlChar
  split
  · exact ⟨by decide, by decide⟩
  · split
    · exact ⟨by decide, by decide⟩
    · split
      · exact ⟨by decide, by decide⟩
      · next h1 h2 h3 =>
        constructor
        · intro hmem
          exact h2 (List.mem_singleton.mp hmem).symm
        · intro hmem
          exact h3 (List.mem_singleton.mp hmem).symm

/-- Escaped text contains no `<`. -/
theorem escapeHtml_lt_not_mem (s : Str) : '<' ∉ escapeHtml s := by
  intro hmem
  unfold escapeHtml at hmem
  rcases List.mem_flatMap.mp hmem with ⟨c, _, hc⟩
  exact (escapeHtmlChar_markup_free c).1 hc

/-- Escaped text contains no `>`. -/
theorem escapeHtml_gt_not_mem (s : Str) : '>' ∉ escapeHtml s := by
  intro hmem
  unfold escapeHtml at hmem
  rcases List.mem_flatMap.mp hmem with ⟨c, _, hc⟩
  exact (escapeHtmlChar_markup_free c).2 hc

/-- Branch equation: a found index renders the three-way split. -/
theorem renderExcerpt_eq_highlighted (excerpt keyword : Str) (i : Nat)
    (hj : jsIndexOf (jsToLower excerpt) (jsToLower keyword) = some i) :
    renderExcerpt excerpt keyword =
      .highlighted (jsSubstring excerpt 0 i)
        (jsSubstring excerpt i (i + keyword.length))
        (jsSubstringFrom excerpt (i + keyword.length)) := by
  unfold renderExcerpt
  rw [hj]

/-- Branch equation: no index renders the plain excerpt. -/
theorem renderExcerpt_eq_plain (excerpt keyword : Str)
    (hj : jsIndexOf (jsToLower excerpt) (jsToLower keyword) = none) :
    renderExcerpt excerpt keyword = .plain excerpt := by
  unfold renderExcerpt
  rw [hj]

/-- A highlighted rendering determines the index `jsIndexOf` found and the
three slices. -/
theorem renderExcerpt_highlighted_split (excerpt keyword b m a : Str)
    (h : renderExcerpt excerpt keyword = .highlighted b m a) :
    ∃ i, jsIndexOf (jsToLower excerpt) (jsToLower keyword) = some i
      ∧ b = jsSubstring excerpt 0 i
      ∧ m = jsSubstring excerpt i (i + keyword.length)
      ∧ a = jsSubstringFrom excerpt (i + keyword.length) := by
  cases hj : jsIndexOf (jsToLower excerpt) (jsToLower keyword) with
  | none =>
    rw [renderExcerpt_eq_plain excerpt keyword hj] at h
    exact absurd h (by simp)
  | some i =>
    rw [renderExcerpt_eq_highlighted excerpt keyword i hj] at h
    injection h with h1 h2 h3
    exact ⟨i, rfl, h1.symm, h2.symm, h3.symm⟩

/-- Branch equation for the assembled excerpt innerHTML. -/
theorem excerptInnerHtml_eq_highlighted (excerpt keyword : Str) (i : Nat)
    (hj : jsIndexOf (jsToLower excerpt) (jsToLower keyword) = some i) :
    excerptInnerHtml excerpt keyword =
      escapeHtml (jsSubstring excerpt 0 i) ++
      "<span class=\"result-keyword\">".data ++
      escapeHtml (jsSubstring excerpt i (i + keyword.length)) ++
      "</span>".data ++
      escapeHtml (jsSubstringFrom excerpt (i + keyword.length)) := by
  unfold excerptInnerHtml
  rw [hj]

/-! ## Claims -/

/-- Claim C1: when the lower-cased excerpt contains the lower-cased
keyword, `jsIndexOf` finds the first such index `i` (an occurrence at `i`,
none earlier), and the rendered excerpt is split into before/match/after
at `i` using the original-case text and the keyword's length, with only
the matched slice highlighted; when it does not, the excerpt is rendered
unmodified with no highlight. -/
theorem c1_first_case_insensitive_occurrence_highlighted
    (excerpt keyword : Str) (o : Option Nat)
    (h : jsIndexOf (jsToLower excerpt) (jsToLower keyword) = o) :
    match o with
    | some i =>
        renderExcerpt excerpt keyword =
          .highlighted (excerpt.take i) ((excerpt.drop i).take keyword.length)
            (excerpt.drop (i + keyword.length))
        ∧ jsToLower keyword <+: (jsToLower excerpt).drop i
        ∧ ∀ j < i, ¬ jsToLower keyword <+: (jsToLower excerpt).drop j
    | none =>
        renderExcerpt excerpt keyword = .plain excerpt
        ∧ ∀ j, ¬ jsToLower keyword <+: (jsToLower excerpt).drop j := by
  cases o with
  | some i =>
    refine ⟨?_, jsIndexOf_some_occurs _ _ _ h, jsIndexOf_some_least _ _ _ h⟩
    rw [renderExcerpt_eq_highlighted excerpt keyword i h]
    simp [jsSubstring, jsSubstringFrom, Nat.add_sub_cancel_left]
  | none =>
    exact ⟨renderExcerpt_eq_plain excerpt keyword h,
      jsIndexOf_none_not_occurs _ _ h⟩

/-- Witness for C1 at the Fox example: the match is found at index 10 and
the rendering splits the original-case excerpt there. -/
theorem c1_first_case_insensitive_occurrence_highlighted_witness :
    jsIndexOf (jsToLower foxExcerpt) (jsToLower foxKeyword) = some 10
    ∧ (renderExcerpt foxExcerpt foxKeyword =
        .highlighted (foxExcerpt.take 10)
          ((foxExcerpt.drop 10).take foxKeyword.length)
          (foxExcerpt.drop (10 + foxKeyword.length))
      ∧ jsToLower foxKeyword <+: (jsToLower foxExcerpt).drop 10
      ∧ ∀ j < 10, ¬ jsToLower foxKeyword <+: (jsToLower foxExcerpt).drop j) :=
  ⟨by decide,
   c1_first_case_insensitive_occurrence_highlighted foxExcerpt foxKeyword
     (some 10) (by decide)⟩

/-- Claim C9: whenever a match index is found, the before, highlighted and
after slices concatenate back to the original excerpt character for
character. -/
theorem c9_highlight_slices_concat_to_excerpt (excerpt keyword b m a : Str)
    (h : renderExcerpt excerpt keyword = .highlighted b m a) :
    b ++ m ++ a = excerpt := by
  obtain ⟨i, _, hb, hm, ha⟩ :=
    renderExcerpt_highlighted_split excerpt keyword b m a h
  subst hb; subst hm; subst ha
  unfold jsSubstring jsSubstringFrom
  have h1 : i + keyword.length - i = keyword.length := by omega
  have h2 : excerpt.drop (i + keyword.length) =
      (excerpt.drop i).drop keyword.length := by
    rw [List.drop_drop, Nat.add_comm]
  rw [List.drop_zero, Nat.sub_zero, h1, h2, List.append_assoc,
    List.take_append_drop, List.take_append_drop]

/-- Witness for C9 at the Fox example. -/
theorem c9_highlight_slices_concat_to_excerpt_witness :
    renderExcerpt foxExcerpt foxKeyword =
      .highlighted ("The quick ".data) ("Fox".data) (" jumps".data)
    ∧ "The quick ".data ++ "Fox".data ++ " jumps".data = foxExcerpt :=
  ⟨by decide,
   c9_highlight_slices_concat_to_excerpt foxExcerpt foxKeyword _ _ _ (by decide)⟩

/-- Claim C2: every untrusted string inserted into the container as HTML
is the escaped form of the original text — the error message in
`showError`, and the three excerpt slices in the highlighted branch; the
escaped fragments contain no markup characters, so the only `<` characters
in the assembled innerHTML are the two of the handler-generated span
wrapper (respectively the two of the error div), and an excerpt such as
`<script>` escapes to inert text. -/
theorem c2_untrusted_text_escaped (excerpt keyword msg b m a : Str)
    (h : renderExcerpt excerpt keyword = .highlighted b m a) :
    showErrorHtml msg =
      "<div class=\"error\">".data ++ escapeHtml msg ++ "</div>".data
    ∧ excerptInnerHtml excerpt keyword =
        escapeHtml b ++ "<span class=\"result-keyword\">".data ++
          escapeHtml m ++ "</span>".data ++ escapeHtml a
    ∧ '<' ∉ escapeHtml b ∧ '<' ∉ escapeHtml m ∧ '<' ∉ escapeHtml a
    ∧ '<' ∉ escapeHtml msg
    ∧ (excerptInnerHtml excerpt keyword).count '<' = 2
    ∧ (showErrorHtml msg).count '<' = 2
    ∧ escapeHtml ("<script>".data) = "&lt;script&gt;".data := by
  obtain ⟨i, hj, hb, hm, ha⟩ :=
    renderExcerpt_highlighted_split excerpt keyword b m a h
  subst hb; subst hm; subst ha
  refine ⟨rfl, excerptInnerHtml_eq_highlighted excerpt keyword i hj,
    escapeHtml_lt_not_mem _, escapeHtml_lt_not_mem _, escapeHtml_lt_not_mem _,
    escapeHtml_lt_not_mem _, ?_, ?_, by decide⟩
  · rw [excerptInnerHtml_eq_highlighted excerpt keyword i hj]
    simp only [List.count_append]
    rw [List.count_eq_zero.mpr (escapeHtml_lt_not_mem _),
      List.count_eq_zero.mpr (escapeHtml_lt_not_mem _),
      List.count_eq_zero.mpr (escapeHtml_lt_not_mem _)]
    decide
  · unfold showErrorHtml
    simp only [List.count_append]
    rw [List.count_eq_zero.mpr (escapeHtml_lt_not_mem _)]
    decide

/-- Witness for C2: an excerpt that itself contains a `<` character is
rendered with that character escaped, and only the span wrapper
contributes markup. -/
theorem c2_untrusted_text_escaped_witness :
    renderExcerpt ("a<b Fox jumps".data) ("fox".data) =
      .highlighted ("a<b ".data) ("Fox".data) (" jumps".data)
    ∧ (showErrorHtml ("x".data) =
        "<div class=\"error\">".data ++ escapeHtml ("x".data) ++ "</div>".data
      ∧ excerptInnerHtml ("a<b Fox jumps".data) ("fox".data) =
          escapeHtml ("a<b ".data) ++ "<span class=\"result-keyword\">".data ++
            escapeHtml ("Fox".data) ++ "</span>".data ++ escapeHtml (" jumps".data)
      ∧ '<' ∉ escapeHtml ("a<b ".data) ∧ '<' ∉ escapeHtml ("Fox".data)
      ∧ '<' ∉ escapeHtml (" jumps".data)
      ∧ '<' ∉ escapeHtml ("x".data)
      ∧ (excerptInnerHtml ("a<b Fox jumps".data) ("fox".data)).count '<' = 2
      ∧ (showErrorHtml ("x".data)).count '<' = 2
      ∧ escapeHtml ("<script>".data) = "&lt;script&gt;".data) :=
  ⟨by decide,
   c2_untrusted_text_escaped ("a<b Fox jumps".data) ("fox".data) ("x".data)
     ("a<b ".data) ("Fox".data) (" jumps".data) (by decide)⟩

/-- Unfolding of the handler when both trimmed fields are non-empty. -/
theorem handleSubmit_valid (rawUrl rawKeyword : Str) (response : ScanResponse)
    (ui0 : UiState) (hu : jsTrim rawUrl ≠ []) (hk : jsTrim rawKeyword ≠ []) :
    handleSubmit rawUrl rawKeyword response ui0 =
      finishCycle (tryScan (jsTrim rawKeyword) response) := by
  simp only [handleSubmit]
  rw [if_neg (not_or.mpr ⟨hu, hk⟩)]

/-- Unfolding of the handler when some trimmed field is empty. -/
theorem handleSubmit_invalid (rawUrl rawKeyword : Str) (response : ScanResponse)
    (ui0 : UiState) (h : jsTrim rawUrl = [] ∨ jsTrim rawKeyword = []) :
    handleSubmit rawUrl rawKeyword response ui0 =
      { networkCalled := false, rendered := .error validationMessage
        ui := ui0 } := by
  simp only [handleSubmit]
  rw [if_pos h]

/-- The `finally` clause leaves the UI idle whatever the try block did. -/
theorem finishCycle_ui (x : Except Str Rendered) :
    (finishCycle x).ui = { loadingActive := false, submitDisabled := false } := by
  cases x <;> rfl

/-- Every completed try/catch/finally cycle issued the network call. -/
theorem finishCycle_networkCalled (x : Except Str Rendered) :
    (finishCycle x).networkCalled = true := by
  cases x <;> rfl

/-- Claim C4: when either input is empty or whitespace-only after
trimming, the handler performs no network call and displays the
validation message, for every possible fetch outcome and prior UI
state. -/
theorem c4_empty_fields_block_submission (rawUrl rawKeyword : Str)
    (response : ScanResponse) (ui0 : UiState)
    (h : jsTrim rawUrl = [] ∨ jsTrim rawKeyword = []) :
    (handleSubmit rawUrl rawKeyword response ui0).networkCalled = false
    ∧ (handleSubmit rawUrl rawKeyword response ui0).rendered =
        .error validationMessage := by
  rw [handleSubmit_invalid rawUrl rawKeyword response ui0 h]
  exact ⟨rfl, rfl⟩

/-- Witness for C4 at a whitespace-only URL. -/
theorem c4_empty_fields_block_submission_witness :
    (jsTrim ("   ".data) = [] ∨ jsTrim ("kw".data) = [])
    ∧ ((handleSubmit ("   ".data) ("kw".data) (.netFail ("x".data))
          { loadingActive := false, submitDisabled := false }).networkCalled = false
      ∧ (handleSubmit ("   ".data) ("kw".data) (.netFail ("x".data))
          { loadingActive := false, submitDisabled := false }).rendered =
          .error validationMessage) :=
  ⟨by decide,
   c4_empty_fields_block_submission ("   ".data) ("kw".data) (.netFail ("x".data))
     { loadingActive := false, submitDisabled := false } (by decide)⟩

/-- Claim C5: every submission cycle that issued the network call ends
with the loading indicator inactive and the submit control enabled,
whatever the fetch outcome was. -/
theorem c5_completed_cycle_returns_to_idle (rawUrl rawKeyword : Str)
    (response : ScanResponse) (ui0 : UiState)
    (h : (handleSubmit rawUrl rawKeyword response ui0).networkCalled = true) :
    (handleSubmit rawUrl rawKeyword response ui0).ui =
      { loadingActive := false, submitDisabled := false } := by
  by_cases hc : jsTrim rawUrl = [] ∨ jsTrim rawKeyword = []
  · rw [handleSubmit_invalid rawUrl rawKeyword response ui0 hc] at h
    simp at h
  · obtain ⟨hu, hk⟩ := not_or.mp hc
    rw [handleSubmit_valid rawUrl rawKeyword response ui0 hu hk]
    exact finishCycle_ui _

/-- Witness for C5 at a transport failure. -/
theorem c5_completed_cycle_returns_to_idle_witness :
    (handleSubmit ("http://e.com".data) ("kw".data) (.netFail ([] : Str))
        { loadingActive := true, submitDisabled := true }).networkCalled = true
    ∧ (handleSubmit ("http://e.com".data) ("kw".data) (.netFail ([] : Str))
        { loadingActive := true, submitDisabled := true }).ui =
        { loadingActive := false, submitDisabled := false } :=
  ⟨by decide,
   c5_completed_cycle_returns_to_idle ("http://e.com".data) ("kw".data)
     (.netFail ([] : Str)) { loadingActive := true, submitDisabled := true }
     (by decide)⟩

/-- Counterexample to C3 as stated: for a non-success response whose body
parses without a `detail` field, the displayed text is the line-37 message
`An error occurred while scanning documents.`, which differs from the
claimed generic fallback. -/
theorem c3_counterexample :
    (handleSubmit ("http://e.com".data) ("kw".data)
        (.resp false (.ok (.obj none)))
        { loadingActive := false, submitDisabled := false }).rendered
      = .error serviceErrorMessage
    ∧ serviceErrorMessage ≠ genericFallbackMessage :=
  ⟨by decide, by decide⟩

/-- Claim C3 (amended): a non-success response parsing without `detail`
displays `An error occurred while scanning documents.`; an unparseable
body or a network-level failure displays the thrown error message itself
when that message is non-empty, and the generic fallback
`Failed to scan documents. Please check the URL and try again.` only when
it is empty. -/
theorem c3_fallback_error_messages (rawUrl rawKeyword pmsg emsg : Str)
    (ok : Bool) (ui0 : UiState)
    (hu : jsTrim rawUrl ≠ []) (hk : jsTrim rawKeyword ≠ []) :
    (handleSubmit rawUrl rawKeyword (.resp false (.ok (.obj none))) ui0).rendered
      = .error serviceErrorMessage
    ∧ (handleSubmit rawUrl rawKeyword (.resp ok (.error pmsg)) ui0).rendered
      = .error (if pmsg = [] then genericFallbackMessage else pmsg)
    ∧ (handleSubmit rawUrl rawKeyword (.netFail emsg) ui0).rendered
      = .error (if emsg = [] then genericFallbackMessage else emsg) := by
  refine ⟨?_, ?_, ?_⟩ <;> rw [handleSubmit_valid _ _ _ _ hu hk]
  · rfl
  · cases ok <;> rfl
  · rfl

/-- Witness for the amended C3: a missing `detail`, a parse failure with a
non-empty engine message, and a network failure with a non-empty message.
-/
theorem c3_fallback_error_messages_witness :
    jsTrim ("http://e.com".data) ≠ [] ∧ jsTrim ("kw".data) ≠ []
    ∧ ((handleSubmit ("http://e.com".data) ("kw".data)
          (.resp false (.ok (.obj none)))
          { loadingActive := false, submitDisabled := false }).rendered
        = .error serviceErrorMessage
      ∧ (handleSubmit ("http://e.com".data) ("kw".data)
          (.resp false (.error ("Unexpected end of JSON input".data)))
          { loadingActive := false, submitDisabled := false }).rendered
        = .error (if ("Unexpected end of JSON input".data : Str) = []
            then genericFallbackMessage else "Unexpected end of JSON input".data)
      ∧ (handleSubmit ("http://e.com".data) ("kw".data)
          (.netFail ("Failed to fetch".data))
          { loadingActive := false, submitDisabled := false }).rendered
        = .error (if ("Failed to fetch".data : Str) = []
            then genericFallbackMessage else "Failed to fetch".data)) :=
  ⟨by decide, by decide,
   c3_fallback_error_messages ("http://e.com".data) ("kw".data)
     ("Unexpected end of JSON input".data) ("Failed to fetch".data) false
     { loadingActive := false, submitDisabled := false }
     (by decide) (by decide)⟩

/-- Counterexample to C6 as stated: an empty-string `detail` is falsy in
`errorData.detail || ...` (line 37), so the displayed text is the line-37
message rather than the (empty) `detail` string. -/
theorem c6_counterexample :
    (handleSubmit ("http://e.com".data) ("kw".data)
        (.resp false (.ok (.obj (some ([] : Str)))))
        { loadingActive := false, submitDisabled := false }).rendered
      = .error serviceErrorMessage
    ∧ (handleSubmit ("http://e.com".data) ("kw".data)
        (.resp false (.ok (.obj (some ([] : Str)))))
        { loadingActive := false, submitDisabled := false }).rendered
      ≠ .error ([] : Str) :=
  ⟨by decide, by decide⟩

/-- Claim C6 (amended): for every non-success response whose body parses
to an object with a non-empty string `detail`, the displayed error text is
that `detail` string. -/
theorem c6_detail_displayed (rawUrl rawKeyword d : Str) (ui0 : UiState)
    (hu : jsTrim rawUrl ≠ []) (hk : jsTrim rawKeyword ≠ []) (hd : d ≠ []) :
    (handleSubmit rawUrl rawKeyword (.resp false (.ok (.obj (some d)))) ui0).rendered
      = .error d := by
  rw [handleSubmit_valid _ _ _ _ hu hk]
  simp [tryScan, finishCycle, jsOrElse, detailOf, hd]

/-- Witness for the amended C6 with body detail `bad url`. -/
theorem c6_detail_displayed_witness :
    jsTrim ("http://e.com".data) ≠ [] ∧ jsTrim ("kw".data) ≠ []
    ∧ ("bad url".data : Str) ≠ []
    ∧ (handleSubmit ("http://e.com".data) ("kw".data)
        (.resp false (.ok (.obj (some ("bad url".data)))))
        { loadingActive := false, submitDisabled := false }).rendered
      = .error ("bad url".data) :=
  ⟨by decide, by decide, by decide,
   c6_detail_displayed ("http://e.com".data) ("kw".data) ("bad url".data)
     { loadingActive := false, submitDisabled := false }
     (by decide) (by decide) (by decide)⟩

/-- Claim C7: a successful response with an empty array renders the
no-matches message, not a count header with items. -/
theorem c7_empty_array_shows_no_results (rawUrl rawKeyword : Str)
    (ui0 : UiState)
    (hu : jsTrim rawUrl ≠ []) (hk : jsTrim rawKeyword ≠ []) :
    (handleSubmit rawUrl rawKeyword (.resp true (.ok (.arr []))) ui0).rendered
      = .noResults noResultsMessage := by
  rw [handleSubmit_valid _ _ _ _ hu hk]
  rfl

/-- Witness for C7. -/
theorem c7_empty_array_shows_no_results_witness :
    jsTrim ("http://e.com".data) ≠ [] ∧ jsTrim ("kw".data) ≠ []
    ∧ (handleSubmit ("http://e.com".data) ("kw".data) (.resp true (.ok (.arr [])))
        { loadingActive := false, submitDisabled := false }).rendered
      = .noResults noResultsMessage :=
  ⟨by decide, by decide,
   c7_empty_array_shows_no_results ("http://e.com".data) ("kw".data)
     { loadingActive := false, submitDisabled := false }
     (by decide) (by decide)⟩

/-- Claim C8: a successful response with at least one result renders the
count header followed by one item per result in the order received; the
header reads `Found 1 match` for a single result and
`Found N matches` for more than one. -/
theorem c8_count_header_and_items (rawUrl rawKeyword : Str)
    (rs : List ScanResult) (ui0 : UiState)
    (hu : jsTrim rawUrl ≠ []) (hk : jsTrim rawKeyword ≠ [])
    (h1 : 1 ≤ rs.length) :
    (handleSubmit rawUrl rawKeyword (.resp true (.ok (.arr rs))) ui0).rendered
      = .results (resultsTitleText rs.length)
          (rs.map (renderItem (jsTrim rawKeyword)))
    ∧ (rs.map (renderItem (jsTrim rawKeyword))).length = rs.length
    ∧ (rs.length = 1 → resultsTitleText rs.length = "Found 1 match".data)
    ∧ (1 < rs.length → resultsTitleText rs.length =
        "Found ".data ++ (Nat.repr rs.length).data ++ " matches".data) := by
  refine ⟨?_, by simp, ?_, ?_⟩
  · rw [handleSubmit_valid _ _ _ _ hu hk]
    show displayResults rs (jsTrim rawKeyword) = _
    unfold displayResults
    rw [if_neg (by omega)]
  · intro h
    rw [h]
    decide
  · intro h2
    unfold resultsTitleText
    rw [if_pos h2, List.append_assoc]
    rfl

/-- Witness for C8 with two results. -/
theorem c8_count_header_and_items_witness :
    jsTrim ("http://e.com".data) ≠ [] ∧ jsTrim ("kw".data) ≠ []
    ∧ 1 ≤ ([⟨"http://a".data, "a kw b".data⟩,
        ⟨"http://b".data, "none here".data⟩] : List ScanResult).length
    ∧ ((handleSubmit ("http://e.com".data) ("kw".data)
        (.resp true (.ok (.arr [⟨"http://a".data, "a kw b".data⟩,
          ⟨"http://b".data, "none here".data⟩])))
        { loadingActive := false, submitDisabled := false }).rendered
      = .results (resultsTitleText 2)
          ([⟨"http://a".data, "a kw b".data⟩,
            ⟨"http://b".data, "none here".data⟩].map
            (renderItem (jsTrim ("kw".data))))
      ∧ ([⟨"http://a".data, "a kw b".data⟩,
          ⟨"http://b".data, "none here".data⟩].map
          (renderItem (jsTrim ("kw".data)))).length = 2
      ∧ ((2 : Nat) = 1 → resultsTitleText 2 = "Found 1 match".data)
      ∧ ((1 : Nat) < 2 → resultsTitleText 2 =
          "Found ".data ++ (Nat.repr 2).data ++ " matches".data)) :=
  ⟨by decide, by decide, by decide,
   c8_count_header_and_items ("http://e.com".data) ("kw".data)
     [⟨"http://a".data, "a kw b".data⟩, ⟨"http://b".data, "none here".data⟩]
     { loadingActive := false, submitDisabled := false }
     (by decide) (by decide) (by decide)⟩

/-- Claim C10: the link href is the service-supplied `document_url`
verbatim — no validation, escaping or scheme filtering — and the link text
is the same string inserted as inert text; in particular a
`javascript:` URL becomes the href unchanged. -/
theorem c10_link_href_verbatim (keyword : Str) (r : ScanResult) :
    (renderItem keyword r).linkHref = r.document_url
    ∧ (renderItem keyword r).linkText = r.document_url
    ∧ (renderItem keyword
        { document_url := "javascript:alert(1)".data
          excerpt := r.excerpt }).linkHref = "javascript:alert(1)".data :=
  ⟨rfl, rfl, rfl⟩
